import Mathlib

/-!
Shallow embedding of the pipette tip lifecycle state machine of the
opentrons api-only repository slice, centred on
`opentrons/protocol_engine/execution/tip_handler.py`,
`opentrons/protocol_engine/commands/pick_up_tip.py` and the nozzle-layout
parts of `opentrons/protocol_api/instrument_context.py`.

Python `Optional[str]` parameters become `Option String`; Python truthiness
of an optional string (`if not primary_nozzle`) is modelled by `truthy`;
Python dict results become association lists in insertion order; raised
exceptions become `Except` errors; dict indexing that can fail becomes a
lookup that produces a `keyError` value carrying the missing key, mirroring
the Python `KeyError`.  Floats that are only carried around (tip length,
diameter, volume) are modelled as `Rat`.
-/

namespace Opentrons

/-- Python truthiness of an `Optional[str]`: `None` and `""` are falsy. -/
def truthy : Option String → Bool
  | none => false
  | some s => !s.isEmpty

/-- `opentrons.types.NozzleConfigurationType` (types.py). -/
inductive NozzleConfigurationType
  | COLUMN
  | ROW
  | SINGLE
  | FULL
  | SUBRECT
deriving DecidableEq, Repr

/-- `opentrons.hardware_control.types.InstrumentProbeType`: the two physical
tip-presence sensors of a multi-probe pipette. -/
inductive InstrumentProbeType
  | PRIMARY
  | SECONDARY
deriving DecidableEq, Repr

/-- `opentrons.protocol_engine.types.TipPresenceStatus` tri-state. -/
inductive TipPresenceStatus
  | PRESENT
  | ABSENT
  | UNKNOWN
deriving DecidableEq, Repr

/-- `opentrons.protocol_engine.types.TipGeometry`: length (mm), diameter
(mm) and max volume (µL) of a tip.  Floats are carried, never computed
with, so `Rat` is a faithful carrier. -/
structure TipGeometry where
  length : Rat
  diameter : Rat
  volume : Rat
deriving DecidableEq, Repr

/-- The errors that the nozzle-layout code paths of `tip_handler.py` can
raise.  `tipAttachedPrecondition` and `singleChannelPrecondition` are both
`CommandPreconditionViolated`; `rowLimit` and `partialColumnLimit` are both
`CommandParameterLimitViolated`; `keyError` is an uncontrolled Python
`KeyError` carrying the missing dictionary key. -/
inductive NozzleLayoutError
  | tipAttachedPrecondition
  | singleChannelPrecondition
  | rowLimit
  | partialColumnLimit
  | keyError (key : String)
deriving DecidableEq, Repr

/-- Which errors are of kind `CommandPreconditionViolated`. -/
def NozzleLayoutError.isPreconditionViolated : NozzleLayoutError → Bool
  | .tipAttachedPrecondition => true
  | .singleChannelPrecondition => true
  | _ => false

/-- Which errors are of kind `CommandParameterLimitViolated`. -/
def NozzleLayoutError.isParameterLimitViolated : NozzleLayoutError → Bool
  | .rowLimit => true
  | .partialColumnLimit => true
  | _ => false

/-- `PRIMARY_NOZZLE_TO_ENDING_NOZZLE_MAP` (tip_handler.py lines 31-36),
as the underlying partial two-key lookup: outer key the primary nozzle,
inner key the style string; inner keys are only COLUMN and ROW. -/
def PRIMARY_NOZZLE_TO_ENDING_NOZZLE_MAP (primary style : String) : Option String :=
  match primary, style with
  | "A1", "COLUMN" => some "H1"
  | "A1", "ROW" => some "A12"
  | "H1", "COLUMN" => some "A1"
  | "H1", "ROW" => some "H12"
  | "A12", "COLUMN" => some "H12"
  | "A12", "ROW" => some "A1"
  | "H12", "COLUMN" => some "A12"
  | "H12", "ROW" => some "H1"
  | _, _ => none

/-- `PRIMARY_NOZZLE_TO_BACK_LEFT_NOZZLE_MAP` (tip_handler.py lines 38-43). -/
def PRIMARY_NOZZLE_TO_BACK_LEFT_NOZZLE_MAP (primary style : String) : Option String :=
  match primary, style with
  | "A1", "COLUMN" => some "A1"
  | "A1", "ROW" => some "A1"
  | "H1", "COLUMN" => some "A1"
  | "H1", "ROW" => some "H1"
  | "A12", "COLUMN" => some "A12"
  | "A12", "ROW" => some "A1"
  | "H12", "COLUMN" => some "A12"
  | "H12", "ROW" => some "H1"
  | _, _ => none

/-- The outer keys of both nozzle maps. -/
def primaryMapKeys : List String := ["A1", "H1", "A12", "H12"]

/-- Python `MAP[primary][style]` on `PRIMARY_NOZZLE_TO_ENDING_NOZZLE_MAP`:
a missing outer key raises `KeyError(primary)` before the inner lookup,
a missing inner key raises `KeyError(style)`. -/
def lookupEndingNozzle (primary style : String) : Except NozzleLayoutError String :=
  if primaryMapKeys.contains primary then
    match PRIMARY_NOZZLE_TO_ENDING_NOZZLE_MAP primary style with
    | some v => .ok v
    | none => .error (.keyError style)
  else .error (.keyError primary)

/-- Python `MAP[primary][style]` on `PRIMARY_NOZZLE_TO_BACK_LEFT_NOZZLE_MAP`. -/
def lookupBackLeftNozzle (primary style : String) : Except NozzleLayoutError String :=
  if primaryMapKeys.contains primary then
    match PRIMARY_NOZZLE_TO_BACK_LEFT_NOZZLE_MAP primary style with
    | some v => .ok v
    | none => .error (.keyError style)
  else .error (.keyError primary)

/-- `_available_for_nozzle_layout` (tip_handler.py lines 122-201), the
module-level nozzle layout resolver.  The result models the returned dict
as an association list in insertion order.  Note the source compares the
style against the misspelled literal "PARTIAL_COLUM" in the 96-channel
guard (line 147). -/
def _available_for_nozzle_layout (channels : Nat) (style : String)
    (primary_nozzle front_right_nozzle back_left_nozzle : Option String) :
    Except NozzleLayoutError (List (String × String)) :=
  if channels = 1 then .error .singleChannelPrecondition
  else if style = "ALL" then .ok []
  else if style = "ROW" ∧ channels = 8 then .error .rowLimit
  else if style = "PARTIAL_COLUM" ∧ channels = 96 then .error .partialColumnLimit
  else if truthy primary_nozzle = false then .ok [("primary_nozzle", "A1")]
  else
    let p := primary_nozzle.getD ""
    if style = "SINGLE" then .ok [("primary_nozzle", p)]
    else if style = "QUADRANT" ∧ truthy front_right_nozzle = true ∧
        truthy back_left_nozzle = false then
      .ok [("primary_nozzle", p),
           ("front_right_nozzle", front_right_nozzle.getD ""),
           ("back_left_nozzle", p)]
    else if style = "QUADRANT" ∧ truthy back_left_nozzle = true ∧
        truthy front_right_nozzle = false then
      .ok [("primary_nozzle", p),
           ("front_right_nozzle", p),
           ("back_left_nozzle", back_left_nozzle.getD "")]
    else if truthy front_right_nozzle = false ∧ truthy back_left_nozzle = true then
      (lookupEndingNozzle p style).map fun e =>
        [("primary_nozzle", p),
         ("front_right_nozzle", e),
         ("back_left_nozzle", back_left_nozzle.getD "")]
    else if truthy front_right_nozzle = true ∧ truthy back_left_nozzle = false then
      (lookupBackLeftNozzle p style).map fun b =>
        [("primary_nozzle", p),
         ("front_right_nozzle", front_right_nozzle.getD ""),
         ("back_left_nozzle", b)]
    else if truthy front_right_nozzle = true ∧ truthy back_left_nozzle = true then
      .ok [("primary_nozzle", p),
           ("front_right_nozzle", front_right_nozzle.getD ""),
           ("back_left_nozzle", back_left_nozzle.getD "")]
    else do
      let e ← lookupEndingNozzle p style
      let b ← lookupBackLeftNozzle p style
      .ok [("primary_nozzle", p),
           ("front_right_nozzle", e),
           ("back_left_nozzle", b)]

/-- `HardwareTipHandler.available_for_nozzle_layout` (tip_handler.py lines
234-250): fails with `CommandPreconditionViolated` when the state view
reports an attached tip, before reading the channel count or resolving. -/
def HardwareTipHandler_available_for_nozzle_layout (attached_tip : Bool)
    (channels : Nat) (style : String)
    (primary_nozzle front_right_nozzle back_left_nozzle : Option String) :
    Except NozzleLayoutError (List (String × String)) :=
  if attached_tip then .error .tipAttachedPrecondition
  else _available_for_nozzle_layout channels style
    primary_nozzle front_right_nozzle back_left_nozzle

/-- `VirtualTipHandler.available_for_nozzle_layout` (tip_handler.py lines
473-489): identical guard and delegation on the virtual handler. -/
def VirtualTipHandler_available_for_nozzle_layout (attached_tip : Bool)
    (channels : Nat) (style : String)
    (primary_nozzle front_right_nozzle back_left_nozzle : Option String) :
    Except NozzleLayoutError (List (String × String)) :=
  if attached_tip then .error .tipAttachedPrecondition
  else _available_for_nozzle_layout channels style
    primary_nozzle front_right_nozzle back_left_nozzle

/-- The slice of the nozzle map of a pipette that `get_tip_presence_config`
reads: `configuration`, `tip_count`, `back_left` and `front_right`
(types.py `NozzleMapInterface`). -/
structure NozzleConfig where
  configuration : NozzleConfigurationType
  tip_count : Nat
  back_left : String
  front_right : String
deriving DecidableEq, Repr

/-- Errors raised (as Python exceptions) by the tip handler paths. -/
inductive TipHandlerError
  | pickUpTipTipNotAttached (tip_geometry : TipGeometry)
  | tipAttached
  | tipNotAttached
  | protocolEngine
  | valueErrorUnknownPipette
  | valueErrorBadNozzleName
deriving DecidableEq, Repr

/-- Python `int` on a list of characters: the decimal value when all
characters are digits and there is at least one, `none` where Python
`int` would raise `ValueError`. -/
def decimalValue (cs : List Char) : Option Nat :=
  if cs.isEmpty then none
  else cs.foldl
    (fun acc c => acc.bind fun n =>
      if c.isDigit then some (n * 10 + (c.toNat - 48)) else none)
    (some 0)

/-- Column number of a nozzle name: Python `int(nozzle[1:])`, `none` when
the digits do not parse (where Python `int` would raise `ValueError`). -/
def nozzleColumn (nozzle : String) : Option Nat :=
  decimalValue (nozzle.data.drop 1)

/-- `tip_on_left_side_96` (tip_handler.py lines 204-207): whether the
back-left nozzle of the configuration sits in column 1. -/
def tip_on_left_side_96 (back_left_nozzle : String) : Option Bool :=
  (nozzleColumn back_left_nozzle).map (· = 1)

/-- `tip_on_right_side_96` (tip_handler.py lines 210-213): whether the
front-right nozzle of the configuration sits in column 12. -/
def tip_on_right_side_96 (front_right_nozzle : String) : Option Bool :=
  (nozzleColumn front_right_nozzle).map (· = 12)

/-- `unsupported_layout_types_96` (tip_handler.py line 258). -/
def unsupported_layout_types_96 : List NozzleConfigurationType :=
  [NozzleConfigurationType.SINGLE]

/-- `HardwareTipHandler.get_tip_presence_config` (tip_handler.py lines
252-294): whether tip-presence sensing is supported for the current
channel count and nozzle map, and which single sensor (if any) to follow
on a partial 96-channel configuration. -/
def get_tip_presence_config (channels : Nat) (cfg : NozzleConfig) :
    Except TipHandlerError (Bool × Option InstrumentProbeType) :=
  match channels with
  | 1 => .ok (true, none)
  | 8 => .ok (decide (4 ≤ cfg.tip_count), none)
  | 96 =>
    let supported : Bool :=
      !(unsupported_layout_types_96.contains cfg.configuration) &&
        decide (4 ≤ cfg.tip_count)
    if cfg.configuration ≠ NozzleConfigurationType.FULL ∧ supported = true then
      match tip_on_left_side_96 cfg.back_left, tip_on_right_side_96 cfg.front_right with
      | some use_left, some use_right =>
        if use_left ∧ use_right then .ok (supported, none)
        else if use_left then .ok (supported, some InstrumentProbeType.PRIMARY)
        else .ok (supported, some InstrumentProbeType.SECONDARY)
      | _, _ => .error .valueErrorBadNozzleName
    else .ok (supported, none)
  | _ => .error .valueErrorUnknownPipette

/-- Behaviour of the hardware gateway call inside `verify_tip_presence`:
the call either succeeds, raises `FailedTipStateCheck` (the sensed state
differs from the expected one), or raises `HardwareNotSupportedError`
(OT2: no sensing hardware). -/
inductive SenseOutcome
  | ok
  | failedCheck
  | notSupported
deriving DecidableEq, Repr

/-- `HardwareTipHandler.verify_tip_presence` (tip_handler.py lines
411-436): `HardwareNotSupportedError` is swallowed; `FailedTipStateCheck`
is converted to `TipAttachedError` when ABSENT was expected, to
`TipNotAttachedError` when PRESENT was expected, and to a generic
`ProtocolEngineError` otherwise. -/
def verify_tip_presence (expected : TipPresenceStatus) (sense : SenseOutcome) :
    Except TipHandlerError Unit :=
  match sense with
  | .ok => .ok ()
  | .notSupported => .ok ()
  | .failedCheck =>
    match expected with
    | .ABSENT => .error .tipAttached
    | .PRESENT => .error .tipNotAttached
    | .UNKNOWN => .error .protocolEngine

/-- The environment a `HardwareTipHandler.pick_up_tip` call reads: the
nominal geometry looked up for the target well, the calibrated tip length
(if a calibration record exists for the pipette serial and labware), the
channel count of the pipette and nozzle map, and what the presence sensor
does when consulted. -/
structure PickUpEnv where
  nominal : TipGeometry
  calibrated_length : Option Rat
  channels : Nat
  nozzle_config : NozzleConfig
  sense : SenseOutcome
deriving DecidableEq, Repr

/-- The tip geometry `HardwareTipHandler.pick_up_tip` resolves before any
verification (tip_handler.py lines 306-320): calibrated length with
nominal fallback, nominal diameter and volume. -/
def resolvedTipGeometry (env : PickUpEnv) : TipGeometry :=
  { length := env.calibrated_length.getD env.nominal.length
    diameter := env.nominal.diameter
    volume := env.nominal.volume }

/-- `HardwareTipHandler.pick_up_tip` (tip_handler.py lines 296-344):
resolve geometry, issue the pickup motion, then, when
`do_not_ignore_tip_presence` and the configuration supports sensing,
verify presence; a sensed mismatch (`TipNotAttachedError`) is re-raised
as `PickUpTipTipNotAttachedError` carrying the already-resolved geometry.
On success the geometry is cached and returned. -/
def HardwareTipHandler_pick_up_tip (env : PickUpEnv)
    (do_not_ignore_tip_presence : Bool) : Except TipHandlerError TipGeometry :=
  let tip_geometry := resolvedTipGeometry env
  match get_tip_presence_config env.channels env.nozzle_config with
  | .error e => .error e
  | .ok (tip_presence_supported, _follow_singular_sensor) =>
    if do_not_ignore_tip_presence ∧ tip_presence_supported = true then
      match verify_tip_presence TipPresenceStatus.PRESENT env.sense with
      | .error .tipNotAttached => .error (.pickUpTipTipNotAttached tip_geometry)
      | .error e => .error e
      | .ok () => .ok tip_geometry
    else .ok tip_geometry

/-- State-changing hardware-API calls made by the tip handler. -/
inductive HwEffect
  | tipDropMoves
  | removeTip
deriving DecidableEq, Repr

/-- `HardwareTipHandler.drop_tip` (tip_handler.py lines 346-374) as the
sequence of state-changing hardware calls performed together with the
exception raised, if any: the drop motion always happens; when
`do_not_ignore_tip_presence`, presence is verified expecting ABSENT and
any error propagates before `remove_tip` runs. -/
def HardwareTipHandler_drop_tip (sense : SenseOutcome)
    (do_not_ignore_tip_presence : Bool) :
    List HwEffect × Option TipHandlerError :=
  let moved := [HwEffect.tipDropMoves]
  if do_not_ignore_tip_presence then
    match verify_tip_presence TipPresenceStatus.ABSENT sense with
    | .error e => (moved, some e)
    | .ok () => (moved ++ [HwEffect.removeTip], none)
  else (moved ++ [HwEffect.removeTip], none)

/-- Modelled from the spec: the fluid-state deltas produced by the
`set_fluid_empty` / `set_fluid_unknown` builders of
`protocol_engine/state/update_types.py`, which is not part of the source
slice.  `empty` is the state with `current_volume = 0` (with `cleanTip`
flagging a never-used tip); `unknown` invalidates the volume record. -/
inductive FluidUpdate
  | empty (cleanTip : Bool)
  | unknown
deriving DecidableEq, Repr

/-- Modelled from the spec: the current volume a fluid delta commits
(`empty` means `current_volume == 0`; `unknown` records no volume). -/
def FluidUpdate.currentVolume : FluidUpdate → Option Rat
  | .empty _ => some 0
  | .unknown => none

/-- Modelled from the spec: a sparse state-update delta
(`protocol_engine/state/update_types.py StateUpdate`, not part of the
source slice) restricted to the fields the pick-up-tip command touches.
Each field is `none` when the delta leaves it alone.  `pipetteLocation`
stands for the location delta produced by `move_to_well`. -/
structure StateUpdate where
  pipetteLocation : Option String := none
  pipetteTipState : Option (String × Option TipGeometry) := none
  fluid : Option (String × FluidUpdate) := none
  tipsUsed : Option (String × List String) := none
  readyToAspirate : Option (String × Bool) := none
deriving DecidableEq, Repr

namespace StateUpdate

/-- Modelled from the spec: `StateUpdate.reduce` — an additive merge of
sparse deltas in which a field set by the later delta overrides the
earlier one. -/
def reduce (a b : StateUpdate) : StateUpdate :=
  { pipetteLocation := b.pipetteLocation.orElse fun _ => a.pipetteLocation
    pipetteTipState := b.pipetteTipState.orElse fun _ => a.pipetteTipState
    fluid := b.fluid.orElse fun _ => a.fluid
    tipsUsed := b.tipsUsed.orElse fun _ => a.tipsUsed
    readyToAspirate := b.readyToAspirate.orElse fun _ => a.readyToAspirate }

/-- `update_pipette_tip_state` builder call as used in pick_up_tip.py. -/
def update_pipette_tip_state (u : StateUpdate) (pipette_id : String)
    (tip_geometry : Option TipGeometry) : StateUpdate :=
  { u with pipetteTipState := some (pipette_id, tip_geometry) }

/-- `set_fluid_empty` builder call as used in pick_up_tip.py. -/
def set_fluid_empty (u : StateUpdate) (pipette_id : String)
    (clean_tip : Bool) : StateUpdate :=
  { u with fluid := some (pipette_id, FluidUpdate.empty clean_tip) }

/-- `set_fluid_unknown` builder call as used in pick_up_tip.py. -/
def set_fluid_unknown (u : StateUpdate) (pipette_id : String) : StateUpdate :=
  { u with fluid := some (pipette_id, FluidUpdate.unknown) }

/-- `mark_tips_as_used` builder call as used in pick_up_tip.py. -/
def mark_tips_as_used (u : StateUpdate) (labware_id : String)
    (well_names : List String) : StateUpdate :=
  { u with tipsUsed := some (labware_id, well_names) }

/-- `set_pipette_ready_to_aspirate` builder call as used in pick_up_tip.py. -/
def set_pipette_ready_to_aspirate (u : StateUpdate) (pipette_id : String)
    (ready_to_aspirate : Bool) : StateUpdate :=
  { u with readyToAspirate := some (pipette_id, ready_to_aspirate) }

end StateUpdate

/-- A deck position, carried through from the movement result. -/
structure DeckPoint where
  x : Rat
  y : Rat
  z : Rat
deriving DecidableEq, Repr

/-- Outcome of the `move_to_well` call at the start of
`PickUpTipImplementation.execute`: success with a position and the
location delta it committed, or a defined `StallOrCollisionError` with
its own state update. -/
inductive MoveOutcome
  | ok (position : DeckPoint) (location : Option String)
  | stall (location : Option String)
deriving DecidableEq, Repr

/-- The state update a move outcome carries (location field only). -/
def MoveOutcome.stateUpdate : MoveOutcome → StateUpdate
  | .ok _ loc => { pipetteLocation := loc }
  | .stall loc => { pipetteLocation := loc }

/-- `PickUpTipResult` (pick_up_tip.py lines 49-69). -/
structure PickUpTipResult where
  tipVolume : Rat
  tipLength : Rat
  tipDiameter : Rat
  position : DeckPoint
deriving DecidableEq, Repr

/-- The value `PickUpTipImplementation.execute` returns: a success with
one committed state update, a defined `TipPhysicallyMissingError` with
the genuine and the false-positive state updates, or a propagated
defined `StallOrCollisionError` from the movement layer. -/
inductive ExecuteReturn
  | success (result : PickUpTipResult) (state_update : StateUpdate)
  | tipPhysicallyMissing (state_update state_update_if_false_positive : StateUpdate)
  | stallOrCollision (state_update : StateUpdate)
deriving DecidableEq, Repr

/-- `PickUpTipImplementation.execute` (pick_up_tip.py lines 116-210).
`tips_to_mark_as_used` is the well list the state view computes from the
active nozzle map (`state.tips.compute_tips_to_mark_as_used`, outside the
source slice, passed through unchanged).  A `PickUpTipTipNotAttachedError`
from the tip handler is converted into the dual-delta defined error; any
other tip-handler exception propagates. -/
def PickUpTipImplementation_execute (pipette_id labware_id well_name : String)
    (tips_to_mark_as_used : List String) (move_result : MoveOutcome)
    (env : PickUpEnv) : Except TipHandlerError ExecuteReturn :=
  match move_result with
  | .stall loc => .ok (.stallOrCollision { pipetteLocation := loc })
  | .ok position loc =>
    match HardwareTipHandler_pick_up_tip env true with
    | .error (.pickUpTipTipNotAttached tip_geometry) =>
      let state_update_if_false_positive :=
        ((((StateUpdate.reduce {} { pipetteLocation := loc }).update_pipette_tip_state
            pipette_id (some tip_geometry)).set_fluid_empty
            pipette_id true).mark_tips_as_used
            labware_id tips_to_mark_as_used)
      let state_update :=
        (((StateUpdate.reduce {} { pipetteLocation := loc }).mark_tips_as_used
            labware_id tips_to_mark_as_used).set_fluid_unknown pipette_id)
      .ok (.tipPhysicallyMissing state_update state_update_if_false_positive)
    | .error e => .error e
    | .ok tip_geometry =>
      let state_update :=
        ((({ pipetteLocation := loc : StateUpdate }.update_pipette_tip_state
            pipette_id (some tip_geometry)).mark_tips_as_used
            labware_id tips_to_mark_as_used).set_fluid_empty
            pipette_id true).set_pipette_ready_to_aspirate pipette_id true
      .ok (.success
        { tipVolume := tip_geometry.volume
          tipLength := tip_geometry.length
          tipDiameter := tip_geometry.diameter
          position := position }
        state_update)

/-- `opentrons.protocol_api._nozzle_layout.NozzleLayout` as used by
`InstrumentContext.configure_nozzle_layout`. -/
inductive NozzleLayout
  | SINGLE
  | COLUMN
  | ROW
  | PARTIAL_COLUMN
  | QUADRANT
  | ALL
deriving DecidableEq, Repr

/-- Errors raised by the protocol_api layer (instrument_context.py). -/
inductive PapiError
  | unsupportedAPI
  | apiVersionError
  | valueError (what : String)
  | preconditionStartingTipPartial
  | preconditionTipTrackingUnavailable
deriving DecidableEq, Repr

/-- Python `APIVersion` ordering: lexicographic on (major, minor). -/
def versionAtLeast (v threshold : Nat × Nat) : Bool :=
  decide (threshold.1 < v.1 ∨ (v.1 = threshold.1 ∧ threshold.2 ≤ v.2))

/-- `opentrons.types.ALLOWED_PRIMARY_NOZZLES` (types.py line 537). -/
def ALLOWED_PRIMARY_NOZZLES : List String := ["A1", "H1", "A12", "H12"]

/-- `_check_valid_start_nozzle` (instrument_context.py lines 3175-3184):
a starting nozzle is required and must be one of the allowed primaries. -/
def _check_valid_start_nozzle (start : Option String) :
    Except PapiError String :=
  match start with
  | none => .error (.valueError "no starting nozzle")
  | some s =>
    if ALLOWED_PRIMARY_NOZZLES.contains s then .ok s
    else .error (.valueError "starting nozzle not allowed")

/-- `_check_valid_end_nozzle` (instrument_context.py lines 3185-3202);
Python `start[0] in end` is a substring test of the one-character row
letter of `start`. -/
def _check_valid_end_nozzle (start : String) (e : Option String) :
    Except PapiError String :=
  match e with
  | none => .error (.valueError "partial column requires end")
  | some endNozzle =>
    if endNozzle.data.contains (start.data.headD (Char.ofNat 0)) then
      .error (.valueError "start and end in the same row")
    else if start = "H1" ∨ start = "H12" then
      if endNozzle.data.contains (Char.ofNat 65) then
        .error (.valueError "end in row A with start in row H")
      else .ok endNozzle
    else if start = "A1" ∨ start = "A12" then
      if endNozzle.data.contains (Char.ofNat 72) then
        .error (.valueError "end in row H with start in row A")
      else .ok endNozzle
    else .ok endNozzle

/-- `_raise_if_has_end_or_front_right_or_back_left`
(instrument_context.py lines 3162-3173). -/
def _raise_if_has_end_or_front_right_or_back_left
    (e front_right back_left : Option String) : Except PapiError Unit :=
  if truthy e = true ∨ truthy front_right = true ∨ truthy back_left = true then
    .error (.valueError "end, front_right, back_left not allowed")
  else .ok ()

/-- `_raise_if_has_front_right_or_back_left_for_partial_column`
(instrument_context.py lines 3222-3229). -/
def _raise_if_has_front_right_or_back_left_for_partial_column
    (front_right back_left : Option String) : Except PapiError Unit :=
  if truthy front_right = true ∨ truthy back_left = true then
    .error (.valueError "front_right and back_left not allowed for partial column")
  else .ok ()

/-- `_raise_if_no_front_right_or_back_left_for_quadrant`
(instrument_context.py lines 3205-3211). -/
def _raise_if_no_front_right_or_back_left_for_quadrant
    (front_right back_left : Option String) : Except PapiError Unit :=
  if front_right = none ∧ back_left = none then
    .error (.valueError "quadrant requires front_right or back_left")
  else .ok ()

/-- `_raise_if_has_end_nozzle_for_quadrant`
(instrument_context.py lines 3214-3219). -/
def _raise_if_has_end_nozzle_for_quadrant (e : Option String) :
    Except PapiError Unit :=
  if e ≠ none then .error (.valueError "end not supported for quadrant")
  else .ok ()

/-- `_raise_if_configuration_not_supported_by_pipette`
(instrument_context.py lines 3086-3100): COLUMN and ROW need 96 channels,
PARTIAL_COLUMN needs 8 channels. -/
def _raise_if_configuration_not_supported_by_pipette (channels : Nat)
    (style : NozzleLayout) : Except PapiError Unit :=
  match style with
  | .COLUMN | .ROW =>
    if channels ≠ 96 then
      .error (.valueError "only supported on 96-channel pipettes")
    else .ok ()
  | .PARTIAL_COLUMN =>
    if channels ≠ 8 then
      .error (.valueError "partial column only supported on 8-channel pipettes")
    else .ok ()
  | _ => .ok ()

/-- The triple `InstrumentContext.configure_nozzle_layout` finally hands
to `self._core.configure_nozzle_layout` (instrument_context.py lines
3040-3045). -/
structure ResolvedLayout where
  primary_nozzle : Option String
  front_right_nozzle : Option String
  back_left_nozzle : Option String
deriving DecidableEq, Repr

/-- `InstrumentContext.configure_nozzle_layout` (instrument_context.py
lines 2897-3046), from the `@requires_version(2, 16)` guard through the
per-style validation and the conversion of the PARTIAL_COLUMN `end` into a
front-right or back-left corner, to the triple passed to the core. -/
def configure_nozzle_layout (api_version : Nat × Nat) (channels : Nat)
    (style : NozzleLayout) (start e front_right back_left : Option String) :
    Except PapiError ResolvedLayout := do
  if versionAtLeast api_version (2, 16) = false then
    throw .apiVersionError
  if style = NozzleLayout.QUADRANT then
    throw .unsupportedAPI
  if versionAtLeast api_version (2, 20) = false ∧
      style ≠ NozzleLayout.COLUMN ∧ style ≠ NozzleLayout.ALL then
    throw .apiVersionError
  match style with
  | .SINGLE =>
    let validated_start ← _check_valid_start_nozzle start
    _raise_if_has_end_or_front_right_or_back_left e front_right back_left
    pure { primary_nozzle := some validated_start
           front_right_nozzle := front_right
           back_left_nozzle := back_left }
  | .COLUMN | .ROW =>
    _raise_if_configuration_not_supported_by_pipette channels style
    let validated_start ← _check_valid_start_nozzle start
    _raise_if_has_end_or_front_right_or_back_left e front_right back_left
    pure { primary_nozzle := some validated_start
           front_right_nozzle := front_right
           back_left_nozzle := back_left }
  | .PARTIAL_COLUMN =>
    _raise_if_configuration_not_supported_by_pipette channels style
    let validated_start ← _check_valid_start_nozzle start
    let validated_end ← _check_valid_end_nozzle validated_start e
    _raise_if_has_front_right_or_back_left_for_partial_column front_right back_left
    if validated_start = "H1" ∨ validated_start = "H12" then
      pure { primary_nozzle := some validated_start
             front_right_nozzle := some validated_start
             back_left_nozzle := some validated_end }
    else if start = some "A1" ∨ start = some "A12" then
      pure { primary_nozzle := some validated_start
             front_right_nozzle := some validated_end
             back_left_nozzle := some validated_start }
    else
      pure { primary_nozzle := some validated_start
             front_right_nozzle := front_right
             back_left_nozzle := back_left }
  | .QUADRANT =>
    let validated_start ← _check_valid_start_nozzle start
    _raise_if_has_end_nozzle_for_quadrant e
    _raise_if_no_front_right_or_back_left_for_quadrant front_right back_left
    if front_right = none then
      pure { primary_nozzle := some validated_start
             front_right_nozzle := some validated_start
             back_left_nozzle := back_left }
    else if back_left = none then
      pure { primary_nozzle := some validated_start
             front_right_nozzle := front_right
             back_left_nozzle := some validated_start }
    else
      pure { primary_nozzle := some validated_start
             front_right_nozzle := front_right
             back_left_nozzle := back_left }
  | .ALL =>
    pure { primary_nozzle := start
           front_right_nozzle := front_right
           back_left_nozzle := back_left }

/-- Modelled from the spec: the number of nozzles (tip_count) of a
partial-column span on an 8-channel pipette, built by the shared-data
`NozzleMap` (not part of the source slice): the rows between the two
corner nozzles of column 1, inclusive.  Row letters A..H map to 1..8. -/
def partialColumnTipCount (corner1 corner2 : String) : Option Nat := do
  let r1 := (corner1.data.headD (Char.ofNat 0)).toNat
  let r2 := (corner2.data.headD (Char.ofNat 0)).toNat
  if 65 ≤ r1 ∧ r1 ≤ 72 ∧ 65 ≤ r2 ∧ r2 ≤ 72 then
    some ((max r1 r2) - (min r1 r2) + 1)
  else none

/-- Outcome of the automatic-tip-selection prologue of
`InstrumentContext.pick_up_tip` with `location=None`: either an error was
raised before any selection, or `labware.next_available_tip` was reached. -/
inductive TipSelectionOutcome
  | nextAvailableTip (uses_starting_tip : Bool)
deriving DecidableEq, Repr

/-- The `location is None` prologue of `InstrumentContext.pick_up_tip`
(instrument_context.py lines 1206-1249): the engine nozzle map is
consulted only at API version 2.18 and above; a non-FULL configuration
combined with a set `starting_tip` raises `CommandPreconditionViolated`
before any tip selection; otherwise unavailable automatic tip tracking
raises `CommandPreconditionViolated` before selection; otherwise
`next_available_tip` runs. -/
def pick_up_tip_auto_select (api_version : Nat × Nat)
    (engine_nozzle_configuration : NozzleConfigurationType)
    (starting_tip_set : Bool) (tip_tracking_available : Bool) :
    Except PapiError TipSelectionOutcome :=
  let nozzle_map : Option NozzleConfigurationType :=
    if versionAtLeast api_version (2, 18) then some engine_nozzle_configuration
    else none
  if (match nozzle_map with
      | some cfg => decide (cfg ≠ NozzleConfigurationType.FULL)
      | none => false) = true ∧ starting_tip_set = true then
    .error .preconditionStartingTipPartial
  else if tip_tracking_available = false then
    .error .preconditionTipTrackingUnavailable
  else .ok (.nextAvailableTip starting_tip_set)

/-! Helper lemmas (shared; not named by any claim). -/

theorem truthy_some_of_ne (p : String) (h : p ≠ "") : truthy (some p) = true := by
  have he : p.isEmpty = false := by
    cases hi : p.isEmpty
    · rfl
    · exact absurd ((String.isEmpty_iff p).mp hi) h
  simp [truthy, he]

theorem endingMap_none (p s : String) (h1 : s ≠ "COLUMN") (h2 : s ≠ "ROW") :
    PRIMARY_NOZZLE_TO_ENDING_NOZZLE_MAP p s = none := by
  unfold PRIMARY_NOZZLE_TO_ENDING_NOZZLE_MAP
  split <;> simp_all

theorem backLeftMap_none (p s : String) (h1 : s ≠ "COLUMN") (h2 : s ≠ "ROW") :
    PRIMARY_NOZZLE_TO_BACK_LEFT_NOZZLE_MAP p s = none := by
  unfold PRIMARY_NOZZLE_TO_BACK_LEFT_NOZZLE_MAP
  split <;> simp_all

theorem lookupEndingNozzle_keyError (p s : String)
    (h : primaryMapKeys.contains p = false ∨ (s ≠ "COLUMN" ∧ s ≠ "ROW")) :
    ∃ k, lookupEndingNozzle p s = .error (.keyError k) := by
  unfold lookupEndingNozzle
  by_cases hm : primaryMapKeys.contains p = true
  · rcases h with h | ⟨h1, h2⟩
    · rw [hm] at h; exact absurd h (by simp)
    · refine ⟨s, ?_⟩
      rw [endingMap_none p s h1 h2]
      simp only [hm, if_true]
  · refine ⟨p, ?_⟩
    simp at hm
    simp [hm]

theorem lookupBackLeftNozzle_keyError (p s : String)
    (h : primaryMapKeys.contains p = false ∨ (s ≠ "COLUMN" ∧ s ≠ "ROW")) :
    ∃ k, lookupBackLeftNozzle p s = .error (.keyError k) := by
  unfold lookupBackLeftNozzle
  by_cases hm : primaryMapKeys.contains p = true
  · rcases h with h | ⟨h1, h2⟩
    · rw [hm] at h; exact absurd h (by simp)
    · refine ⟨s, ?_⟩
      rw [backLeftMap_none p s h1 h2]
      simp only [hm, if_true]
  · refine ⟨p, ?_⟩
    simp at hm
    simp [hm]

/-! Claim theorems. -/

/-- Claim C3 (code_bug evidence): the spec says style PARTIAL_COLUMN on a
96-channel pipette fails with ParameterLimitViolated, and the guard in
`_available_for_nozzle_layout` plainly intends that (its parameter_name is
PartialColumnNozzleLayout), but it compares against the misspelled literal
"PARTIAL_COLUM", so a call with the real style string "PARTIAL_COLUMN"
falls through and resolves normally; only the misspelled string triggers
the limit, while the ROW-on-8-channel half of the claim does hold. -/
theorem partial_column_96_guard_misses_PARTIAL_COLUMN :
    _available_for_nozzle_layout 96 "PARTIAL_COLUMN" none none none =
      .ok [("primary_nozzle", "A1")] ∧
    _available_for_nozzle_layout 96 "PARTIAL_COLUM" none none none =
      .error .partialColumnLimit ∧
    (NozzleLayoutError.partialColumnLimit).isParameterLimitViolated = true ∧
    (∀ primary front_right back_left : Option String,
      _available_for_nozzle_layout 8 "ROW" primary front_right back_left =
        .error .rowLimit) ∧
    (NozzleLayoutError.rowLimit).isParameterLimitViolated = true := by
  refine ⟨by rfl, by rfl, by rfl, ?_, by rfl⟩
  intro primary front_right back_left
  simp [_available_for_nozzle_layout]

/-- Claim C7: in `HardwareTipHandler.drop_tip`, when verification is
enabled and the sensor check fails while expecting ABSENT (a sensed
PRESENT), a `TipAttachedError` exception propagates and the
`remove_tip` state change is not performed; in every other case
(verification passes, is skipped, or sensing is unsupported) no error is
raised and `remove_tip` is performed. -/
theorem drop_tip_verify_failure_raises_and_skips_removal :
    ∀ (sense : SenseOutcome) (do_not_ignore_tip_presence : Bool),
      (HardwareTipHandler_drop_tip sense do_not_ignore_tip_presence).2 =
        (if do_not_ignore_tip_presence = true ∧ sense = SenseOutcome.failedCheck
          then some TipHandlerError.tipAttached else none) ∧
      ((HwEffect.removeTip ∈
          (HardwareTipHandler_drop_tip sense do_not_ignore_tip_presence).1) ↔
        (HardwareTipHandler_drop_tip sense do_not_ignore_tip_presence).2 = none) := by
  intro sense dni
  cases sense <;> cases dni <;> decide

/-- Claim C8: both the hardware-backed and the virtual
`available_for_nozzle_layout` fail with `CommandPreconditionViolated`
whenever a tip is attached, for every channel count, style and nozzle
hint, i.e. before any layout resolution can produce a new layout. -/
theorem available_for_nozzle_layout_fails_fast_with_tip_attached :
    ∀ (channels : Nat) (style : String)
      (primary front_right back_left : Option String),
      HardwareTipHandler_available_for_nozzle_layout true channels style
          primary front_right back_left =
        .error .tipAttachedPrecondition ∧
      VirtualTipHandler_available_for_nozzle_layout true channels style
          primary front_right back_left =
        .error .tipAttachedPrecondition ∧
      (NozzleLayoutError.tipAttachedPrecondition).isPreconditionViolated = true := by
  intro channels style primary front_right back_left
  refine ⟨?_, ?_, by decide⟩ <;>
    simp [HardwareTipHandler_available_for_nozzle_layout,
      VirtualTipHandler_available_for_nozzle_layout]

/-- Claim C10 (counterexample): the claim asserts that every multi-channel
call with a primary nozzle and a style outside ALL/SINGLE/COLUMN/ROW
reaches the `PRIMARY_NOZZLE_TO_ENDING_NOZZLE_MAP[primary][style]` lookup
and so raises KeyError; but a QUADRANT call with exactly one corner hint
returns from an earlier branch with no lookup at all. -/
theorem quadrant_single_corner_no_keyerror :
    _available_for_nozzle_layout 8 "QUADRANT" (some "A1") (some "B1") none =
      .ok [("primary_nozzle", "A1"), ("front_right_nozzle", "B1"),
           ("back_left_nozzle", "A1")] := by
  rfl

/-- Claim C6 (counterexample): the claim says the resolved layout of
`configure_nozzle_layout(style=PARTIAL_COLUMN, start="A1", end="D1")` on
an 8-channel pipette has front_right "A1" and back_left "D1"; the source
resolves the opposite way (start "A1" keeps the back-left corner, the end
"D1" becomes the front-right corner), so the resolved front_right is "D1",
not "A1". -/
theorem partial_column_A1_D1_resolution_counterexample :
    configure_nozzle_layout (2, 21) 8 NozzleLayout.PARTIAL_COLUMN
        (some "A1") (some "D1") none none =
      .ok { primary_nozzle := some "A1"
            front_right_nozzle := some "D1"
            back_left_nozzle := some "A1" } ∧
    (some "D1" : Option String) ≠ some "A1" := by
  exact ⟨by rfl, by decide⟩

/-- Claim C6 (amended): on an 8-channel pipette,
`configure_nozzle_layout(style=PARTIAL_COLUMN, start="A1", end="D1")`
succeeds and resolves to primary "A1", front_right "D1" and back_left
"A1", and the A1-D1 span has tip_count 4. -/
theorem partial_column_A1_D1_resolution_amended :
    configure_nozzle_layout (2, 21) 8 NozzleLayout.PARTIAL_COLUMN
        (some "A1") (some "D1") none none =
      .ok { primary_nozzle := some "A1"
            front_right_nozzle := some "D1"
            back_left_nozzle := some "A1" } ∧
    partialColumnTipCount "A1" "D1" = some 4 := by
  exact ⟨by rfl, by rfl⟩

/-- Claim C9: in the automatic-selection branch of
`InstrumentContext.pick_up_tip` (no explicit location), whenever the
engine nozzle map is consulted (API version at least 2.18, where partial
configurations and automatic tip tracking coexist), a configuration other
than FULL together with a set starting_tip raises
`CommandPreconditionViolated` before any tip selection runs. -/
theorem pick_up_tip_partial_config_with_starting_tip_precondition
    (api_version : Nat × Nat) (cfg : NozzleConfigurationType)
    (tip_tracking_available : Bool)
    (hv : versionAtLeast api_version (2, 18) = true)
    (hc : cfg ≠ NozzleConfigurationType.FULL) :
    pick_up_tip_auto_select api_version cfg true tip_tracking_available =
      .error .preconditionStartingTipPartial := by
  unfold pick_up_tip_auto_select
  rw [if_pos hv]
  simp [hc]

/-- Witness for C9 at API version 2.18, a COLUMN configuration and
available tip tracking. -/
theorem pick_up_tip_partial_config_with_starting_tip_precondition_witness :
    versionAtLeast (2, 18) (2, 18) = true ∧
    NozzleConfigurationType.COLUMN ≠ NozzleConfigurationType.FULL ∧
    pick_up_tip_auto_select (2, 18) NozzleConfigurationType.COLUMN true true =
      .error .preconditionStartingTipPartial :=
  ⟨by decide, by decide,
    pick_up_tip_partial_config_with_starting_tip_precondition
      (2, 18) NozzleConfigurationType.COLUMN true (by decide) (by decide)⟩

/-- Claim C5: on a 96-channel pipette with a non-FULL configuration whose
sensing is supported (not SINGLE, at least 4 active nozzles), the sensor
restriction follows the columns of the configuration corners: back_left
in column 1 together with front_right in column 12 leaves both sensors in
play; back_left in column 1 alone follows the PRIMARY sensor; any other
back_left column (for instance column 3) follows the SECONDARY sensor. -/
theorem presence_config_96_partial_sensor_selection
    (cfg : NozzleConfig) (cb cf : Nat)
    (hfull : cfg.configuration ≠ NozzleConfigurationType.FULL)
    (hsingle : cfg.configuration ≠ NozzleConfigurationType.SINGLE)
    (hcount : 4 ≤ cfg.tip_count)
    (hb : nozzleColumn cfg.back_left = some cb)
    (hf : nozzleColumn cfg.front_right = some cf) :
    get_tip_presence_config 96 cfg =
      .ok (true,
        if cb = 1 ∧ cf = 12 then none
        else if cb = 1 then some InstrumentProbeType.PRIMARY
        else some InstrumentProbeType.SECONDARY) := by
  have hsup : (!(unsupported_layout_types_96.contains cfg.configuration) &&
      decide (4 ≤ cfg.tip_count)) = true := by
    simp [unsupported_layout_types_96, hsingle, hcount]
  unfold get_tip_presence_config
  simp only [tip_on_left_side_96, tip_on_right_side_96, hb, hf, Option.map_some,
    hsup, hfull, ne_eq, not_false_iff, true_and, if_true, if_pos]
  by_cases h1 : cb = 1
  · by_cases h12 : cf = 12
    · simp [h1, h12]
    · simp [h1, h12]
  · simp [h1]

/-- Witness for C5 on a COLUMN configuration over column 1 (primary
sensor) after checking the hypotheses concretely. -/
theorem presence_config_96_partial_sensor_selection_witness :
    (NozzleConfig.mk NozzleConfigurationType.COLUMN 8 "A1" "H1").configuration ≠
        NozzleConfigurationType.FULL ∧
    nozzleColumn "A1" = some 1 ∧
    get_tip_presence_config 96 (NozzleConfig.mk NozzleConfigurationType.COLUMN 8 "A1" "H1") =
      .ok (true, some InstrumentProbeType.PRIMARY) := by
  refine ⟨by decide, by rfl, ?_⟩
  have h := presence_config_96_partial_sensor_selection
    (NozzleConfig.mk NozzleConfigurationType.COLUMN 8 "A1" "H1") 1 1
    (by decide) (by decide) (by decide) (by rfl) (by rfl)
  simpa using h

theorem supported96_iff (cfg : NozzleConfig) :
    (!(unsupported_layout_types_96.contains cfg.configuration) &&
      decide (4 ≤ cfg.tip_count)) = true ↔
      (cfg.configuration ≠ NozzleConfigurationType.SINGLE ∧ 4 ≤ cfg.tip_count) := by
  simp [unsupported_layout_types_96, List.contains]

/-- Claim C4 (counterexample): the claim says sensing is unsupported (a
no-op returning UNKNOWN) on single-channel pipettes with fewer than 4
active nozzles and supported in all other non-96 cases; the source does
the opposite: `get_tip_presence_config` reports supported for every
single-channel pipette (which always has 1 active nozzle) and
unsupported for an 8-channel pipette with fewer than 4 active nozzles. -/
theorem single_channel_presence_supported_counterexample :
    get_tip_presence_config 1
        (NozzleConfig.mk NozzleConfigurationType.SINGLE 1 "A1" "A1") =
      .ok (true, none) ∧
    get_tip_presence_config 8
        (NozzleConfig.mk NozzleConfigurationType.SINGLE 1 "A1" "A1") =
      .ok (false, none) :=
  ⟨rfl, rfl⟩

/-- Claim C4 (amended): `get_tip_presence_config` reports sensing
supported always on a 1-channel pipette, on an 8-channel pipette exactly
when at least 4 nozzles are active, and on a 96-channel pipette exactly
when the layout is not SINGLE and at least 4 nozzles are active; sensing
support gates whether verification runs in pick_up_tip. -/
theorem tip_presence_supported_characterization :
    (∀ cfg : NozzleConfig, get_tip_presence_config 1 cfg = .ok (true, none)) ∧
    (∀ cfg : NozzleConfig,
      get_tip_presence_config 8 cfg = .ok (decide (4 ≤ cfg.tip_count), none)) ∧
    (∀ (cfg : NozzleConfig) (sup : Bool) (follow : Option InstrumentProbeType),
      get_tip_presence_config 96 cfg = .ok (sup, follow) →
      (sup = true ↔
        (cfg.configuration ≠ NozzleConfigurationType.SINGLE ∧ 4 ≤ cfg.tip_count))) := by
  refine ⟨fun cfg => rfl, fun cfg => rfl, ?_⟩
  intro cfg sup follow h
  simp only [get_tip_presence_config] at h
  rw [← supported96_iff cfg]
  split at h
  · split at h
    · split at h
      · injection h with h1
        injection h1 with h2 h3
        exact h2 ▸ Iff.rfl
      · split at h
        · injection h with h1
          injection h1 with h2 h3
          exact h2 ▸ Iff.rfl
        · injection h with h1
          injection h1 with h2 h3
          exact h2 ▸ Iff.rfl
    · exact absurd h (by simp)
  · injection h with h1
    injection h1 with h2 h3
    exact h2 ▸ Iff.rfl

/-- Witness for C4 (amended), applying the 96-channel characterization at
a COLUMN configuration with 8 active nozzles. -/
theorem tip_presence_supported_characterization_witness :
    (true = true ↔
      (NozzleConfigurationType.COLUMN ≠ NozzleConfigurationType.SINGLE ∧
        4 ≤ 8)) :=
  tip_presence_supported_characterization.2.2
    (NozzleConfig.mk NozzleConfigurationType.COLUMN 8 "A1" "H1") true
    (some InstrumentProbeType.PRIMARY) (by rfl)

/-- Claim C1: when a pick-up-tip execution runs presence verification and
the sensor senses ABSENT, the command returns (does not raise) a
TipPhysicallyMissingError defined error with two deltas: the genuine
delta marks the consumed wells used and sets fluid to unknown committing
no tip, while the false-positive delta marks the same wells used and
commits the tip with the geometry that was resolved before verification
(so resolution precedes verification and its result rides on the error). -/
theorem pick_up_tip_sensed_absent_dual_delta
    (pipette_id labware_id well_name : String) (tips_to_mark_as_used : List String)
    (position : DeckPoint) (loc : Option String) (env : PickUpEnv)
    (follow : Option InstrumentProbeType)
    (hsup : get_tip_presence_config env.channels env.nozzle_config =
      .ok (true, follow))
    (habs : env.sense = SenseOutcome.failedCheck) :
    PickUpTipImplementation_execute pipette_id labware_id well_name
        tips_to_mark_as_used (MoveOutcome.ok position loc) env =
      .ok (ExecuteReturn.tipPhysicallyMissing
        { pipetteLocation := loc
          tipsUsed := some (labware_id, tips_to_mark_as_used)
          fluid := some (pipette_id, FluidUpdate.unknown) }
        { pipetteLocation := loc
          pipetteTipState := some (pipette_id, some (resolvedTipGeometry env))
          fluid := some (pipette_id, FluidUpdate.empty true)
          tipsUsed := some (labware_id, tips_to_mark_as_used) }) := by
  have hh : HardwareTipHandler_pick_up_tip env true =
      .error (.pickUpTipTipNotAttached (resolvedTipGeometry env)) := by
    unfold HardwareTipHandler_pick_up_tip
    rw [hsup]
    simp [verify_tip_presence, habs]
  unfold PickUpTipImplementation_execute
  rw [hh]
  simp [StateUpdate.reduce, StateUpdate.update_pipette_tip_state,
    StateUpdate.set_fluid_empty, StateUpdate.mark_tips_as_used,
    StateUpdate.set_fluid_unknown]

/-- Witness for C1 on an 8-channel FULL configuration with a calibrated
length override and a failing presence check. -/
theorem pick_up_tip_sensed_absent_dual_delta_witness :
    get_tip_presence_config 8
        (NozzleConfig.mk NozzleConfigurationType.FULL 8 "A1" "H1") =
      .ok (true, none) ∧
    PickUpTipImplementation_execute "p1" "lw1" "A1" ["A1"]
        (MoveOutcome.ok (DeckPoint.mk 1 2 3) (some "A1"))
        (PickUpEnv.mk (TipGeometry.mk 50 5 300) (some 51) 8
          (NozzleConfig.mk NozzleConfigurationType.FULL 8 "A1" "H1")
          SenseOutcome.failedCheck) =
      .ok (ExecuteReturn.tipPhysicallyMissing
        { pipetteLocation := some "A1"
          tipsUsed := some ("lw1", ["A1"])
          fluid := some ("p1", FluidUpdate.unknown) }
        { pipetteLocation := some "A1"
          pipetteTipState := some ("p1", some (TipGeometry.mk 51 5 300))
          fluid := some ("p1", FluidUpdate.empty true)
          tipsUsed := some ("lw1", ["A1"]) }) := by
  refine ⟨by rfl, ?_⟩
  have h := pick_up_tip_sensed_absent_dual_delta "p1" "lw1" "A1" ["A1"]
    (DeckPoint.mk 1 2 3) (some "A1")
    (PickUpEnv.mk (TipGeometry.mk 50 5 300) (some 51) 8
      (NozzleConfig.mk NozzleConfigurationType.FULL 8 "A1" "H1")
      SenseOutcome.failedCheck)
    none (by rfl) (by rfl)
  simpa [resolvedTipGeometry] using h

/-- Claim C2: when presence verification senses PRESENT, or verification
is skipped or unsupported, the pick-up-tip command succeeds and its
single committed state update sets the resolved geometry as the tip
state, sets the fluid state to empty with a clean tip (current volume 0),
sets ready_to_aspirate, and marks used exactly the wells the state view
computed from the active nozzle map. -/
theorem pick_up_tip_success_commit
    (pipette_id labware_id well_name : String) (tips_to_mark_as_used : List String)
    (position : DeckPoint) (loc : Option String) (env : PickUpEnv)
    (sup : Bool) (follow : Option InstrumentProbeType)
    (hcfg : get_tip_presence_config env.channels env.nozzle_config =
      .ok (sup, follow))
    (hok : sup = false ∨ env.sense ≠ SenseOutcome.failedCheck) :
    PickUpTipImplementation_execute pipette_id labware_id well_name
        tips_to_mark_as_used (MoveOutcome.ok position loc) env =
      .ok (ExecuteReturn.success
        { tipVolume := (resolvedTipGeometry env).volume
          tipLength := (resolvedTipGeometry env).length
          tipDiameter := (resolvedTipGeometry env).diameter
          position := position }
        { pipetteLocation := loc
          pipetteTipState := some (pipette_id, some (resolvedTipGeometry env))
          fluid := some (pipette_id, FluidUpdate.empty true)
          tipsUsed := some (labware_id, tips_to_mark_as_used)
          readyToAspirate := some (pipette_id, true) }) ∧
    (FluidUpdate.empty true).currentVolume = some 0 := by
  have hh : HardwareTipHandler_pick_up_tip env true =
      .ok (resolvedTipGeometry env) := by
    unfold HardwareTipHandler_pick_up_tip
    rw [hcfg]
    cases sup with
    | false => simp
    | true =>
      have hs : env.sense ≠ SenseOutcome.failedCheck := by
        rcases hok with h | h
        · exact absurd h (by decide)
        · exact h
      cases hsense : env.sense with
      | ok => simp [verify_tip_presence, hsense]
      | failedCheck => exact absurd hsense hs
      | notSupported => simp [verify_tip_presence, hsense]
  refine ⟨?_, rfl⟩
  unfold PickUpTipImplementation_execute
  rw [hh]
  simp [StateUpdate.update_pipette_tip_state, StateUpdate.mark_tips_as_used,
    StateUpdate.set_fluid_empty, StateUpdate.set_pipette_ready_to_aspirate]

/-- Witness for C2 on a 96-channel COLUMN configuration with the sensor
reporting success, no calibration override. -/
theorem pick_up_tip_success_commit_witness :
    get_tip_presence_config 96
        (NozzleConfig.mk NozzleConfigurationType.COLUMN 8 "A1" "H1") =
      .ok (true, some InstrumentProbeType.PRIMARY) ∧
    PickUpTipImplementation_execute "p1" "lw1" "A1" ["A1", "B1"]
        (MoveOutcome.ok (DeckPoint.mk 1 2 3) (some "A1"))
        (PickUpEnv.mk (TipGeometry.mk 50 5 300) none 96
          (NozzleConfig.mk NozzleConfigurationType.COLUMN 8 "A1" "H1")
          SenseOutcome.ok) =
      .ok (ExecuteReturn.success
        { tipVolume := 300
          tipLength := 50
          tipDiameter := 5
          position := DeckPoint.mk 1 2 3 }
        { pipetteLocation := some "A1"
          pipetteTipState := some ("p1", some (TipGeometry.mk 50 5 300))
          fluid := some ("p1", FluidUpdate.empty true)
          tipsUsed := some ("lw1", ["A1", "B1"])
          readyToAspirate := some ("p1", true) }) := by
  refine ⟨by rfl, ?_⟩
  have h := pick_up_tip_success_commit "p1" "lw1" "A1" ["A1", "B1"]
    (DeckPoint.mk 1 2 3) (some "A1")
    (PickUpEnv.mk (TipGeometry.mk 50 5 300) none 96
      (NozzleConfig.mk NozzleConfigurationType.COLUMN 8 "A1" "H1")
      SenseOutcome.ok)
    true (some InstrumentProbeType.PRIMARY) (by rfl) (Or.inr (by decide))
  simpa [resolvedTipGeometry] using h.1

/-- Claim C10 (amended): whenever the resolver guards all pass (channels
not 1, style outside ALL and SINGLE, not the ROW-on-8 or misspelled
PARTIAL_COLUM-on-96 limits), a truthy primary nozzle is supplied, and no
early-return branch fires (not both corner hints truthy, and not
QUADRANT with at least one corner hint), the fall-through indexes
`PRIMARY_NOZZLE_TO_ENDING_NOZZLE_MAP[primary][style]` (or the back-left
map) and raises an uncontrolled KeyError exactly when the style is
outside COLUMN and ROW or the primary is outside A1, H1, A12, H12. -/
theorem fallthrough_lookup_keyerror
    (channels : Nat) (style p : String) (fr bl : Option String)
    (hch : channels ≠ 1)
    (hall : style ≠ "ALL")
    (hsingle : style ≠ "SINGLE")
    (hrow8 : ¬(style = "ROW" ∧ channels = 8))
    (hpc96 : ¬(style = "PARTIAL_COLUM" ∧ channels = 96))
    (hp : p ≠ "")
    (hboth : ¬(truthy fr = true ∧ truthy bl = true))
    (hquad : ¬(style = "QUADRANT" ∧ (truthy fr = true ∨ truthy bl = true)))
    (hkey : (style ≠ "COLUMN" ∧ style ≠ "ROW") ∨ primaryMapKeys.contains p = false) :
    ∃ k, _available_for_nozzle_layout channels style (some p) fr bl =
      .error (.keyError k) := by
  have hpt := truthy_some_of_ne p hp
  have hkey2 : primaryMapKeys.contains p = false ∨ (style ≠ "COLUMN" ∧ style ≠ "ROW") :=
    hkey.symm
  unfold _available_for_nozzle_layout
  rw [if_neg hch, if_neg hall, if_neg hrow8, if_neg hpc96,
    if_neg (by simp [hpt]), if_neg hsingle]
  cases hfr : truthy fr with
  | true =>
    cases hbl : truthy bl with
    | true => exact absurd ⟨hfr, hbl⟩ hboth
    | false =>
      have hnq : style ≠ "QUADRANT" := fun hq => hquad ⟨hq, Or.inl hfr⟩
      rw [if_neg (by simp [hnq]), if_neg (by simp [hbl]),
        if_neg (by simp [hfr]), if_pos ⟨rfl, rfl⟩]
      obtain ⟨k, hk⟩ := lookupBackLeftNozzle_keyError ((some p).getD "") style
        (by simpa using hkey2)
      exact ⟨k, by rw [hk]; rfl⟩
  | false =>
    cases hbl : truthy bl with
    | true =>
      have hnq : style ≠ "QUADRANT" := fun hq => hquad ⟨hq, Or.inr hbl⟩
      rw [if_neg (by simp [hfr]), if_neg (by simp [hnq]),
        if_pos ⟨rfl, rfl⟩]
      obtain ⟨k, hk⟩ := lookupEndingNozzle_keyError ((some p).getD "") style
        (by simpa using hkey2)
      exact ⟨k, by rw [hk]; rfl⟩
    | false =>
      rw [if_neg (by simp [hfr]), if_neg (by simp [hbl]),
        if_neg (by simp [hbl]), if_neg (by simp [hfr]),
        if_neg (by simp [hfr])]
      obtain ⟨k, hk⟩ := lookupEndingNozzle_keyError ((some p).getD "") style
        (by simpa using hkey2)
      refine ⟨k, ?_⟩
      rw [hk]
      rfl

/-- Witness for C10 (amended): a PARTIAL_COLUMN call on an 8-channel
pipette with primary A1 and no corner hints falls through to the lookup
and raises KeyError. -/
theorem fallthrough_lookup_keyerror_witness :
    ∃ k, _available_for_nozzle_layout 8 "PARTIAL_COLUMN" (some "A1") none none =
      .error (.keyError k) :=
  fallthrough_lookup_keyerror 8 "PARTIAL_COLUMN" "A1" none none
    (by decide) (by decide) (by decide) (by decide) (by decide) (by decide)
    (by decide) (by decide) (Or.inl (by decide))

end Opentrons
